import Mathlib

/-
Verification of the bootstrap orchestrator in src/src/App.tsx of
tangtao646/n8n-desktop.

Modelling conventions (shallow embedding of the React component):
- The component is single-threaded; each event listener and timer callback
  runs to completion, so each is modelled as a pure function
  AppState -> AppState.
- React state setters (setStatus, setProgress, setErrorMsg) mutate the
  corresponding AppState field.  The functional updater
  setProgress(prev => ...) reads the current value, so it is modelled as a
  function of the current field.
- Plain reads of the React state variable `status` inside the useEffect
  closure see the value captured when the effect ran (the effect runs once,
  with status = "checking"); such a read is modelled as an explicit
  capturedStatus parameter of the callback, never as the live field.
- JS numbers carried by progress events are modelled as Rat; Math.round is
  Mathlib round (both compute floor of x + 1/2).  Date.now() timestamps and
  the displayed percent are modelled as Int.
- Timer handles: checkTimer is the mutable variable holding the interval id
  (window.setInterval returns a positive number, modelled by some 1; the
  code never resets it to null).  pollActive records whether the interval
  is still scheduled (clearInterval un-schedules it), deadlineArmed whether
  the 60-second one-shot deadline timeout is still pending, gracePending
  whether the 2-second setTimeout before setStatus("ready") is pending.
- Fallible Tauri invoke calls are modelled as Except String values; a
  thrown/rejected value is a string and the catch block stores
  err.toString() which, for a string rejection, is the string itself, and
  for `throw new Error(m)` is "Error: " ++ m.
-/

namespace Bootstrap

/-- The Status union type of App.tsx (line 7). -/
inductive Status where
  | checking
  | preparing_engine
  | downloading_n8n
  | extracting
  | starting
  | ready
  | error
  deriving DecidableEq, Repr

/-- The observable and closure state of the component: React state
(status, progress, errorMsg) plus the useEffect closure variables
(currentDownloadType, lastProgressUpdate, retryCount, checkTimer) and the
scheduling state of the three timers. -/
structure AppState where
  status : Status
  progress : Int
  errorMsg : String
  currentDownloadType : String
  lastProgressUpdate : Int
  retryCount : Nat
  checkTimer : Option Nat
  pollActive : Bool
  deadlineArmed : Bool
  gracePending : Bool
  deriving DecidableEq, Repr

/-- State at mount: useState initial values and useEffect-scope variable
initialisers (App.tsx lines 18-53). -/
def initialState : AppState :=
  { status := Status.checking
    progress := 0
    errorMsg := ""
    currentDownloadType := ""
    lastProgressUpdate := 0
    retryCount := 0
    checkTimer := none
    pollActive := false
    deadlineArmed := false
    gracePending := false }

/-- The two error strings of the i18n table (src/src/i18n/zh.ts and en.ts):
timeout is shown on retry exhaustion, startup_timeout on the overall
deadline. -/
structure ErrorMsgs where
  timeout : String
  startup_timeout : String
  deriving DecidableEq, Repr

/-- errors section of src/src/i18n/zh.ts. -/
def zhErrors : ErrorMsgs :=
  { timeout := "n8n 服务启动超时，请检查端口是否被占用"
    startup_timeout := "启动超时，请检查网络连接或重启应用" }

/-- errors section of src/src/i18n/en.ts. -/
def enErrors : ErrorMsgs :=
  { timeout := "n8n service startup timeout, please check if the port is occupied"
    startup_timeout := "Startup timeout, please check network connection or restart the application" }

/-- errorMsg stored when install verification fails: the catch block stores
err.toString() of `throw new Error("资源包已下载，但未能正确安装（验证失败）")`
(App.tsx line 141), which prepends the Error class name. -/
def verifyFailMsg : String := "Error: 资源包已下载，但未能正确安装（验证失败）"

/-- Does hay start with needle?  (List-of-characters model of the substring
test underlying JS String.prototype.includes.) -/
def startsWithL : List Char → List Char → Bool
  | _, [] => true
  | [], _ :: _ => false
  | c :: cs, d :: ds => c == d && startsWithL cs ds

/-- Does hay contain needle as a contiguous substring?  Model of JS
String.prototype.includes on the character list. -/
def containsL : List Char → List Char → Bool
  | [], needle => needle.isEmpty
  | c :: cs, needle => startsWithL (c :: cs) needle || containsL cs needle

/-- Character-wise lowercasing, the model of String.prototype.toLowerCase
(all needles tested by the code are ASCII). -/
def toLowerL (l : List Char) : List Char := l.map Char.toLower

/-- checkHealthViaProxy (App.tsx lines 23-42): invoke the proxy_health_check
command; a string result is healthy when its lowercasing contains "healthy"
or "ready" or the raw string contains "200"; any other string, and any
raised failure, is unhealthy.  The function itself never raises: the catch
returns false. -/
def checkHealthViaProxy (result : Except String String) : Bool :=
  match result with
  | Except.error _ => false
  | Except.ok s =>
      containsL (toLowerL s.data) "healthy".data ||
      containsL (toLowerL s.data) "ready".data ||
      containsL s.data "200".data

/-- Spec-side reading of the health classification (spec section 6,
proxy_health_check): healthy iff the result is a string whose lowercasing
has "healthy" or "ready" as a contiguous substring, or which has "200" as a
contiguous substring; substring stated as an explicit decomposition. -/
def healthySpec (r : Except String String) : Prop :=
  ∃ s, r = Except.ok s ∧
    ((∃ l₁ l₂, toLowerL s.data = l₁ ++ "healthy".data ++ l₂) ∨
     (∃ l₁ l₂, toLowerL s.data = l₁ ++ "ready".data ++ l₂) ∨
     (∃ l₁ l₂, s.data = l₁ ++ "200".data ++ l₂))

/-- The download-progress listener (App.tsx lines 59-85): drop the event if
its download_type differs from currentDownloadType; drop it if it arrives
within PROGRESS_DEBOUNCE_MS = 100 of the last update; otherwise round the
payload, accept it into progress only when it does not decrease the value
or equals exactly 100, and advance lastProgressUpdate to now in either
case. -/
def downloadProgressListener (now : Int) (p : Rat) (download_type : String)
    (st : AppState) : AppState :=
  if download_type ≠ st.currentDownloadType then st
  else if now - st.lastProgressUpdate < 100 then st
  else
    let roundedProgress : Int := round p
    { st with
      progress :=
        if roundedProgress ≥ st.progress ∨ roundedProgress = 100 then roundedProgress
        else st.progress
      lastProgressUpdate := now }

/-- The extraction-start listener (App.tsx lines 88-102): drop the event if
its download_type differs from currentDownloadType; if it is "n8n-core" set
status to extracting; for "runtime" do nothing visible. -/
def extractionStartListener (download_type : String) (st : AppState) : AppState :=
  if download_type ≠ st.currentDownloadType then st
  else if download_type = "n8n-core" then { st with status := Status.extracting }
  else st

/-- The stage-setup block run before each download-type await (App.tsx
lines 105-107 and 115-117): setStatus, setProgress(0), then assign
currentDownloadType.  The three statements run in one synchronous block, so
no event handler can interleave. -/
def stageSetup (s : Status) (kind : String) (st : AppState) : AppState :=
  { st with status := s, progress := 0, currentDownloadType := kind }

/-- One observable event of the install-verification loop: an is_installed
call returning b, or a 1000 ms delay. -/
inductive VEvent where
  | check (b : Bool)
  | delay
  deriving DecidableEq, Repr

/-- The while loop of App.tsx lines 128-138, as a trace generator.
fuel = 5 - attempts (the loop guard is attempts < 5) and i is the index of
the next is_installed call; verify i is the result of call number i.  On a
false result the code sleeps 1000 ms and increments attempts before the
next iteration.  Returns the event trace and the final checkInstalled. -/
def installVerifyAux (verify : Nat → Bool) : Nat → Nat → List VEvent × Bool
  | 0, _ => ([], false)
  | fuel + 1, i =>
    if verify i then ([VEvent.check true], true)
    else
      (VEvent.check false :: VEvent.delay :: (installVerifyAux verify fuel (i + 1)).1,
       (installVerifyAux verify fuel (i + 1)).2)

/-- The install-verification loop started with checkInstalled = false and
attempts = 0 (App.tsx lines 128-129). -/
def installVerify (verify : Nat → Bool) : List VEvent × Bool :=
  installVerifyAux verify 5 0

/-- Number of is_installed calls in a trace. -/
def countChecks : List VEvent → Nat
  | [] => 0
  | VEvent.check _ :: r => countChecks r + 1
  | VEvent.delay :: r => countChecks r

/-- Number of 1000 ms delays in a trace. -/
def countDelays : List VEvent → Nat
  | [] => 0
  | VEvent.delay :: r => countDelays r + 1
  | VEvent.check _ :: r => countDelays r

/-- Well-placed delays: every delay immediately follows an unsuccessful
check, each unsuccessful check is followed by exactly one delay, and
nothing at all follows a successful check (the loop halts there). -/
def delayPlacement : List VEvent → Bool
  | [] => true
  | VEvent.check true :: rest => rest.isEmpty
  | VEvent.check false :: VEvent.delay :: rest => delayPlacement rest
  | _ => false

/-- The runtime stage of init (App.tsx lines 104-109): stage setup with
kind "runtime", await setup_runtime; on success clear currentDownloadType;
on failure control jumps to the catch block (line 187), which stores the
message and sets status error without touching currentDownloadType. -/
def runtimePhase (r : Except String Unit) (st : AppState) : AppState :=
  match r with
  | Except.ok _ =>
      { stageSetup Status.preparing_engine ("runtime") st with currentDownloadType := "" }
  | Except.error e =>
      { stageSetup Status.preparing_engine ("runtime") st with
          errorMsg := e, status := Status.error }

/-- The n8n download stage of init (App.tsx lines 112-143): skipped when a
previous phase already reached the catch block, or when is_installed
returned true.  Otherwise: stage setup with kind "n8n-core", await
setup_n8n; on failure jump to catch.  On success clear currentDownloadType,
force setProgress(100), and run install verification; if it fails, the
thrown verification error reaches the catch block. -/
def n8nPhase (installed : Bool) (dl : Except String Unit) (verify : Nat → Bool)
    (st : AppState) : AppState :=
  if st.status = Status.error then st
  else if installed then st
  else
    match dl with
    | Except.error e =>
        { stageSetup Status.downloading_n8n ("n8n-core") st with
            errorMsg := e, status := Status.error }
    | Except.ok _ =>
        if (installVerify verify).2 then
          { stageSetup Status.downloading_n8n ("n8n-core") st with
              currentDownloadType := "", progress := 100 }
        else
          { stageSetup Status.downloading_n8n ("n8n-core") st with
              currentDownloadType := "", progress := 100,
              errorMsg := verifyFailMsg, status := Status.error }

/-- The launch stage of init (App.tsx lines 146-185): skipped when a
previous phase reached the catch block.  setStatus("starting"), await
launch_n8n; on failure jump to catch; on success start the 2000 ms poll
interval (checkTimer receives the interval id, a positive number) and arm
the one-shot 60000 ms deadline timeout (whose id is never stored). -/
def launchPhase (l : Except String Unit) (st : AppState) : AppState :=
  if st.status = Status.error then st
  else
    match l with
    | Except.error e =>
        { st with status := Status.error, errorMsg := e }
    | Except.ok _ =>
        { st with
            status := Status.starting
            checkTimer := some 1
            pollActive := true
            deadlineArmed := true }

/-- The collaborator results consumed by one run of init: the outcomes of
setup_runtime, the first is_installed query, setup_n8n, the verification
loop is_installed calls, and launch_n8n. -/
structure Env where
  setup_runtime : Except String Unit
  is_installed : Bool
  setup_n8n : Except String Unit
  verify : Nat → Bool
  launch_n8n : Except String Unit

/-- The synchronous effect of one run of init up to the point where the
poll interval and the deadline are armed (or the catch block ran). -/
def initRun (env : Env) (st : AppState) : AppState :=
  launchPhase env.launch_n8n
    (n8nPhase env.is_installed env.setup_n8n env.verify
      (runtimePhase env.setup_runtime st))

/-- One firing of the poll interval callback (App.tsx lines 150-176).
checkHealthViaProxy never raises, so the catch branch of the callback is
dead code.  On healthy: clearInterval (guarded by checkTimer truthiness)
and schedule the 2000 ms grace timeout.  On unhealthy: increment
retryCount; at MAX_RETRIES = 5 store the retry-exhaustion message, set
status error and clearInterval.  The deadline timeout is not touched. -/
def pollCallback (msgs : ErrorMsgs) (probe : Except String String)
    (st : AppState) : AppState :=
  if checkHealthViaProxy probe then
    let st1 := if st.checkTimer.isSome then { st with pollActive := false } else st
    { st1 with gracePending := true }
  else
    let st1 := { st with retryCount := st.retryCount + 1 }
    if st1.retryCount ≥ 5 then
      let st2 := { st1 with errorMsg := msgs.timeout, status := Status.error }
      if st2.checkTimer.isSome then { st2 with pollActive := false } else st2
    else st1

/-- The 2000 ms grace timeout callback (App.tsx lines 159-161):
unconditionally setStatus("ready"). -/
def graceCallback (st : AppState) : AppState :=
  { st with status := Status.ready, gracePending := false }

/-- One firing of the 60000 ms overall-deadline timeout (App.tsx lines
179-185).  capturedStatus is the value of the React state variable status
captured by the effect closure when the effect ran; in the mounted
component this is Status.checking, never the live status.  The guard also
reads checkTimer, which clearInterval never resets to null.  Inside the
guard: store the deadline message, set status error, clearInterval. -/
def deadlineCallback (capturedStatus : Status) (msgs : ErrorMsgs)
    (st : AppState) : AppState :=
  if capturedStatus ≠ Status.ready ∧ st.checkTimer.isSome then
    { st with
        errorMsg := msgs.startup_timeout
        status := Status.error
        pollActive := false
        deadlineArmed := false }
  else
    { st with deadlineArmed := false }

/-- The useEffect cleanup (App.tsx lines 197-201): unsubscribe the two
listeners and, if checkTimer is non-null, clearInterval it.  Neither the
deadline timeout nor the grace timeout is cancelled (their ids were never
stored). -/
def cleanup (st : AppState) : AppState :=
  if st.checkTimer.isSome then { st with pollActive := false } else st

/-- An environment in which every collaborator call succeeds and the
package is already installed. -/
def happyEnv : Env :=
  { setup_runtime := Except.ok ()
    is_installed := true
    setup_n8n := Except.ok ()
    verify := fun _ => true
    launch_n8n := Except.ok () }

/-- The state after init ran in happyEnv: status starting, poll interval
running, deadline armed. -/
def postLaunch : AppState := initRun happyEnv initialState

/-- The state after the first probe reported healthy and the grace timeout
fired: status ready.  The deadline is still armed and checkTimer still
holds the interval id. -/
def readyState : AppState :=
  graceCallback (pollCallback zhErrors (Except.ok ("healthy")) postLaunch)

/-- A mid-download state of the runtime stage: percent 50, last accepted
update at time 1000. -/
def debounceState : AppState :=
  { status := Status.preparing_engine
    progress := 50
    errorMsg := ""
    currentDownloadType := "runtime"
    lastProgressUpdate := 1000
    retryCount := 0
    checkTimer := none
    pollActive := false
    deadlineArmed := false
    gracePending := false }

/-- A fresh runtime stage state: percent 0, last update at time 0. -/
def freshStageState : AppState :=
  { status := Status.preparing_engine
    progress := 0
    errorMsg := ""
    currentDownloadType := "runtime"
    lastProgressUpdate := 0
    retryCount := 0
    checkTimer := none
    pollActive := false
    deadlineArmed := false
    gracePending := false }

/-- A runtime stage state with percent 80, last update at time 0. -/
def staleState : AppState :=
  { status := Status.preparing_engine
    progress := 80
    errorMsg := ""
    currentDownloadType := "runtime"
    lastProgressUpdate := 0
    retryCount := 0
    checkTimer := none
    pollActive := false
    deadlineArmed := false
    gracePending := false }

/-- One unhealthy poll tick against the zh message table (the probe invoke
rejected, which checkHealthViaProxy maps to false). -/
def unhealthyStep (st : AppState) : AppState :=
  pollCallback zhErrors (Except.error ("connection refused")) st

/-- Four consecutive unhealthy poll ticks from the post-launch state:
retryCount 4, poll interval still running. -/
def fourFailState : AppState :=
  unhealthyStep (unhealthyStep (unhealthyStep (unhealthyStep postLaunch)))

/-- Five consecutive unhealthy poll ticks from the post-launch state. -/
def exhaustedState : AppState := unhealthyStep fourFailState

/-- Correctness of the prefix test: startsWithL hay needle holds exactly
when hay decomposes as needle followed by a tail. -/
theorem startsWithL_iff (needle : List Char) : ∀ hay : List Char,
    (startsWithL hay needle = true ↔ ∃ t, hay = needle ++ t) := by
  induction needle with
  | nil =>
      intro hay
      constructor
      · intro _; exact ⟨hay, rfl⟩
      · intro _; cases hay <;> rfl
  | cons d ds ih =>
      intro hay
      cases hay with
      | nil => simp [startsWithL]
      | cons c cs =>
          constructor
          · intro h
            rw [startsWithL, Bool.and_eq_true, beq_iff_eq] at h
            obtain ⟨hcd, hrest⟩ := h
            obtain ⟨t, ht⟩ := (ih cs).mp hrest
            exact ⟨t, by simp [hcd, ht]⟩
          · rintro ⟨t, ht⟩
            rw [List.cons_append] at ht
            injection ht with h1 h2
            rw [startsWithL, Bool.and_eq_true, beq_iff_eq]
            exact ⟨h1, (ih cs).mpr ⟨t, h2⟩⟩

/-- Correctness of the substring test: containsL hay needle holds exactly
when hay decomposes around needle. -/
theorem containsL_iff (needle : List Char) : ∀ hay : List Char,
    (containsL hay needle = true ↔ ∃ l₁ l₂, hay = l₁ ++ needle ++ l₂) := by
  intro hay
  induction hay with
  | nil =>
      rw [containsL]
      constructor
      · intro h
        have hn : needle = [] := by
          cases needle with
          | nil => rfl
          | cons a as => simp [List.isEmpty] at h
        exact ⟨[], [], by simp [hn]⟩
      · rintro ⟨l₁, l₂, h⟩
        have h2 : needle = [] := by
          cases l₁ with
          | nil =>
              cases needle with
              | nil => rfl
              | cons a as => simp at h
          | cons a as => simp at h
        simp [h2, List.isEmpty]
  | cons c cs ih =>
      rw [containsL, Bool.or_eq_true]
      constructor
      · intro h
        cases h with
        | inl h =>
            obtain ⟨t, ht⟩ := (startsWithL_iff needle (c :: cs)).mp h
            exact ⟨[], t, by simpa using ht⟩
        | inr h =>
            obtain ⟨l₁, l₂, hl⟩ := ih.mp h
            exact ⟨c :: l₁, l₂, by simp [hl]⟩
      · rintro ⟨l₁, l₂, hl⟩
        cases l₁ with
        | nil =>
            left
            exact (startsWithL_iff needle (c :: cs)).mpr ⟨l₂, by simpa using hl⟩
        | cons a as =>
            right
            rw [List.cons_append, List.cons_append] at hl
            injection hl with h1 h2
            exact ih.mpr ⟨as, l₂, by simpa using h2⟩

/-- Claim C7: the health probe result is classified healthy if and only if
proxy_health_check returned a string that case-insensitively contains
"healthy" or "ready", or contains the substring "200"; every other string
and every raised failure is classified unhealthy.  checkHealthViaProxy is a
total Bool-valued function, so the classification itself never raises. -/
theorem health_probe_classification (r : Except String String) :
    checkHealthViaProxy r = true ↔ healthySpec r := by
  cases r with
  | error e => simp [checkHealthViaProxy, healthySpec]
  | ok s =>
      simp only [checkHealthViaProxy, Bool.or_eq_true, containsL_iff, healthySpec]
      constructor
      · intro h
        exact ⟨s, rfl, or_assoc.mp h⟩
      · rintro ⟨s2, hs, h⟩
        have hss : s = s2 := by injection hs
        subst hss
        exact or_assoc.mpr h

/-- Case characterization of the progress listener result: the displayed
percent either stays unchanged, or becomes the rounded payload, and in the
latter case the rounded payload is no smaller than the old percent or is
exactly 100. -/
theorem downloadProgressListener_progress (now : Int) (q : Rat) (k : String)
    (st : AppState) :
    (downloadProgressListener now q k st).progress = st.progress
    ∨ ((downloadProgressListener now q k st).progress = round q
        ∧ (st.progress ≤ round q ∨ round q = 100)) := by
  rw [downloadProgressListener]
  by_cases h1 : k ≠ st.currentDownloadType
  · rw [if_pos h1]; left; rfl
  · rw [if_neg h1]
    by_cases h2 : now - st.lastProgressUpdate < 100
    · rw [if_pos h2]; left; rfl
    · rw [if_neg h2]
      by_cases h3 : round q ≥ st.progress ∨ round q = 100
      · right
        constructor
        · show (if round q ≥ st.progress ∨ round q = 100 then round q else st.progress) = round q
          rw [if_pos h3]
        · exact h3
      · left
        show (if round q ≥ st.progress ∨ round q = 100 then round q else st.progress) = st.progress
        rw [if_neg h3]

/-- Claim C3: for every progress event, the displayed percent after the
listener runs is at least the previous displayed value or is exactly 100
(the only exception to the comparison); and the stage-setup block of a new
download-type stage resets the displayed percent to 0. -/
theorem percent_monotone_and_stage_reset (now : Int) (q : Rat) (k : String)
    (st : AppState) (s : Status) (k2 : String) :
    (st.progress ≤ (downloadProgressListener now q k st).progress
      ∨ (downloadProgressListener now q k st).progress = 100)
    ∧ (stageSetup s k2 st).progress = 0 := by
  refine ⟨?_, rfl⟩
  rcases downloadProgressListener_progress now q k st with h | ⟨h, hacc⟩
  · left; rw [h]
  · rcases hacc with h2 | h2
    · left; rw [h]; exact h2
    · right; rw [h, h2]

/-- Claim C4: every progress event and every extraction-start event whose
kind differs from the current currentDownloadType leaves the state
completely unchanged, whatever the payload and arrival time. -/
theorem mismatched_kind_events_discarded (now : Int) (q : Rat) (k : String)
    (st : AppState) (h : k ≠ st.currentDownloadType) :
    downloadProgressListener now q k st = st ∧ extractionStartListener k st = st := by
  constructor
  · rw [downloadProgressListener, if_pos h]
  · rw [extractionStartListener, if_pos h]

/-- Witness for C4: a "runtime" event against the cleared kind is dropped. -/
theorem mismatched_kind_events_discarded_witness :
    (("runtime" : String) ≠ initialState.currentDownloadType)
    ∧ (downloadProgressListener 0 50 ("runtime") initialState = initialState
       ∧ extractionStartListener ("runtime") initialState = initialState) :=
  ⟨by decide, mismatched_kind_events_discarded 0 50 ("runtime") initialState (by decide)⟩

/-- Claim C2 counterexample: a terminal 100-percent event of the active
kind arriving 50 ms after the last accepted update falls inside the 100 ms
debounce window and is dropped entirely: the displayed percent stays 50,
contradicting the claim that an in-kind 100-percent event is always
accepted. -/
theorem terminal_hundred_dropped_in_debounce :
    debounceState.currentDownloadType = "runtime"
    ∧ debounceState.progress = 50
    ∧ (downloadProgressListener 1050 100 ("runtime") debounceState).progress = 50 := by
  decide

/-- Claim C2 amended: a percent of exactly 100 is always accepted, whatever
its ordering relative to previously accepted values, provided the event
passes the debounce check, that is, arrives at least 100 ms after the last
event that passed the kind and debounce checks; an event inside the
debounce window, including a terminal 100-percent event, is dropped. -/
theorem hundred_accepted_outside_debounce (now : Int) (q : Rat) (st : AppState)
    (hd : ¬ now - st.lastProgressUpdate < 100) (h100 : round q = 100) :
    (downloadProgressListener now q st.currentDownloadType st).progress = 100 := by
  rw [downloadProgressListener, if_neg (fun h => h rfl), if_neg hd]
  simp [h100]

/-- Witness for the amended C2: the same 100-percent event arriving 100 ms
after the last update is accepted. -/
theorem hundred_accepted_outside_debounce_witness :
    (¬ ((1100 : Int) - debounceState.lastProgressUpdate < 100))
    ∧ round ((100 : Rat)) = 100
    ∧ (downloadProgressListener 1100 100 debounceState.currentDownloadType debounceState).progress = 100 :=
  ⟨by decide, by simp,
   hundred_accepted_outside_debounce 1100 100 debounceState (by decide) (by simp)⟩

/-- Claim C9 counterexample: the listener applies Math.round without any
clamp, so an accepted in-kind event with payload 150 drives the displayed
percent to 150, outside [0,100]. -/
theorem percent_exceeds_hundred :
    freshStageState.progress = 0
    ∧ (downloadProgressListener 200 150 ("runtime") freshStageState).progress = 150 :=
  ⟨rfl, by simp [downloadProgressListener, freshStageState]⟩

/-- Claim C9 amended: the displayed percent never becomes negative (from
any state with nonnegative percent), and it stays within [0,100] only
under the additional assumption that the accepted payload rounds to at
most 100; the code has no upper clamp. -/
theorem percent_bounds (now : Int) (q : Rat) (k : String) (st : AppState)
    (h0 : 0 ≤ st.progress) :
    0 ≤ (downloadProgressListener now q k st).progress
    ∧ (st.progress ≤ 100 → round q ≤ 100 →
        (downloadProgressListener now q k st).progress ≤ 100) := by
  constructor
  · rcases downloadProgressListener_progress now q k st with h | ⟨h, hacc⟩
    · rw [h]; exact h0
    · rw [h]
      rcases hacc with h2 | h2
      · exact le_trans h0 h2
      · rw [h2]; norm_num
  · intro hle hq
    rcases downloadProgressListener_progress now q k st with h | ⟨h, _⟩
    · rw [h]; exact hle
    · rw [h]; exact hq

/-- Witness for the amended C9: an in-range event keeps the percent in
range. -/
theorem percent_bounds_witness :
    ((0 : Int) ≤ freshStageState.progress)
    ∧ (0 ≤ (downloadProgressListener 200 50 ("runtime") freshStageState).progress
       ∧ (freshStageState.progress ≤ 100 → round ((50 : Rat)) ≤ 100 →
           (downloadProgressListener 200 50 ("runtime") freshStageState).progress ≤ 100)) :=
  ⟨by decide, percent_bounds 200 50 ("runtime") freshStageState (by decide)⟩

/-- Claim C10: an in-kind event that passes the debounce check advances the
debounce timestamp to its arrival time even when its percent is rejected by
the monotonic rule (the percent stays unchanged); consequently any
follow-up in-kind event arriving within the next 100 ms, in particular a
genuine higher-percent one, is discarded by the debounce. -/
theorem stale_event_advances_debounce (now now2 : Int) (q q2 : Rat) (st : AppState)
    (hd : ¬ now - st.lastProgressUpdate < 100)
    (hlt : round q < st.progress) (h100 : round q ≠ 100)
    (hd2 : now2 - now < 100) :
    (downloadProgressListener now q st.currentDownloadType st).progress = st.progress
    ∧ (downloadProgressListener now q st.currentDownloadType st).lastProgressUpdate = now
    ∧ downloadProgressListener now2 q2 st.currentDownloadType
        (downloadProgressListener now q st.currentDownloadType st)
      = downloadProgressListener now q st.currentDownloadType st := by
  have hcond : ¬ (round q ≥ st.progress ∨ round q = 100) := by
    push_neg
    exact ⟨hlt, h100⟩
  have hst1 : downloadProgressListener now q st.currentDownloadType st
      = { st with lastProgressUpdate := now } := by
    rw [downloadProgressListener, if_neg (fun h => h rfl), if_neg hd]
    simp [if_neg hcond]
  rw [hst1]
  refine ⟨rfl, rfl, ?_⟩
  rw [downloadProgressListener]
  simp [hd2]

/-- Witness for C10: a stale 10-percent event at t=200 is rejected (percent
stays 80) yet advances the debounce clock, and a genuine 90-percent event
at t=250 is then discarded. -/
theorem stale_event_advances_debounce_witness :
    (¬ ((200 : Int) - staleState.lastProgressUpdate < 100))
    ∧ round ((10 : Rat)) < staleState.progress
    ∧ round ((10 : Rat)) ≠ 100
    ∧ ((250 : Int) - 200 < 100)
    ∧ ((downloadProgressListener 200 10 staleState.currentDownloadType staleState).progress = staleState.progress
       ∧ (downloadProgressListener 200 10 staleState.currentDownloadType staleState).lastProgressUpdate = 200
       ∧ downloadProgressListener 250 90 staleState.currentDownloadType
           (downloadProgressListener 200 10 staleState.currentDownloadType staleState)
         = downloadProgressListener 200 10 staleState.currentDownloadType staleState) :=
  ⟨by decide, by simp [staleState], by simp, by decide,
   stale_event_advances_debounce 200 250 10 90 staleState (by decide) (by simp [staleState]) (by simp) (by decide)⟩

/-- Claim C5 counterexample: when setup_runtime raises, the catch block
stores the message and enters the error state without clearing
currentDownloadType, which still holds "runtime", contradicting the claim
that the kind is cleared whether the call returns or raises. -/
theorem activeKind_retained_on_failure :
    (runtimePhase (Except.error ("network unreachable")) initialState).status = Status.error
    ∧ (runtimePhase (Except.error ("network unreachable")) initialState).currentDownloadType = "runtime" := by
  decide

/-- Claim C5 amended: when a download-stage call returns successfully,
currentDownloadType is cleared to the empty string before any subsequent
stage begins (the cleared state is the input of the next phase); when the
call raises, the controller enters the error state and no subsequent stage
begins, but currentDownloadType keeps the failed stage kind. -/
theorem activeKind_cleared_on_success (st st2 : AppState) (e : String) (verify : Nat → Bool)
    (hst2 : st2.status ≠ Status.error) :
    (runtimePhase (Except.ok ()) st).currentDownloadType = ""
    ∧ (runtimePhase (Except.error e) st).status = Status.error
    ∧ (runtimePhase (Except.error e) st).currentDownloadType = "runtime"
    ∧ (n8nPhase false (Except.ok ()) verify st2).currentDownloadType = ""
    ∧ (n8nPhase false (Except.error e) verify st2).status = Status.error
    ∧ (n8nPhase false (Except.error e) verify st2).currentDownloadType = "n8n-core" := by
  refine ⟨rfl, rfl, rfl, ?_, ?_, ?_⟩
  · rw [n8nPhase, if_neg hst2]
    by_cases h : (installVerify verify).2 <;> simp [h, stageSetup]
  · rw [n8nPhase, if_neg hst2]
    simp [stageSetup]
  · rw [n8nPhase, if_neg hst2]
    simp [stageSetup]

/-- Witness for the amended C5 at concrete collaborator outcomes. -/
theorem activeKind_cleared_on_success_witness :
    (initialState.status ≠ Status.error)
    ∧ ((runtimePhase (Except.ok ()) initialState).currentDownloadType = ""
       ∧ (runtimePhase (Except.error ("boom")) initialState).status = Status.error
       ∧ (runtimePhase (Except.error ("boom")) initialState).currentDownloadType = "runtime"
       ∧ (n8nPhase false (Except.ok ()) (fun _ => false) initialState).currentDownloadType = ""
       ∧ (n8nPhase false (Except.error ("boom")) (fun _ => false) initialState).status = Status.error
       ∧ (n8nPhase false (Except.error ("boom")) (fun _ => false) initialState).currentDownloadType = "n8n-core") :=
  ⟨by decide, activeKind_cleared_on_success initialState initialState ("boom") (fun _ => false) (by decide)⟩

/-- The verification loop trace is well formed for every fuel and start
index: delays sit exactly after unsuccessful checks and nothing follows a
successful check. -/
theorem delayPlacement_installVerifyAux (verify : Nat → Bool) :
    ∀ fuel i, delayPlacement (installVerifyAux verify fuel i).1 = true := by
  intro fuel
  induction fuel with
  | zero => intro i; rfl
  | succ n ih =>
      intro i
      by_cases h : verify i
      · simp [installVerifyAux, h, delayPlacement]
      · simp [installVerifyAux, h, delayPlacement, ih (i + 1)]

/-- The verification loop makes at most fuel is_installed calls. -/
theorem countChecks_installVerifyAux_le (verify : Nat → Bool) :
    ∀ fuel i, countChecks (installVerifyAux verify fuel i).1 ≤ fuel := by
  intro fuel
  induction fuel with
  | zero => intro i; simp [installVerifyAux, countChecks]
  | succ n ih =>
      intro i
      by_cases h : verify i
      · simp [installVerifyAux, h, countChecks]
      · simp only [installVerifyAux, h, Bool.false_eq_true, ite_false, countChecks]
        have := ih (i + 1)
        omega

/-- Exact shape of the verification loop trace when the first true result
is at offset k: k fail-delay blocks followed by one successful check. -/
theorem installVerifyAux_first_true (verify : Nat → Bool) :
    ∀ k fuel i, k < fuel → verify (i + k) = true → (∀ j, j < k → verify (i + j) = false) →
      installVerifyAux verify fuel i =
        ((List.replicate k [VEvent.check false, VEvent.delay]).flatten ++ [VEvent.check true], true) := by
  intro k
  induction k with
  | zero =>
      intro fuel i hk ht _
      cases fuel with
      | zero => omega
      | succ n =>
          have h0 : verify i = true := by simpa using ht
          simp [installVerifyAux, h0]
  | succ m ih =>
      intro fuel i hk ht hf
      cases fuel with
      | zero => omega
      | succ n =>
          have h0 : verify i = false := by simpa using hf 0 (Nat.succ_pos m)
          have ht2 : verify (i + 1 + m) = true := by
            rw [show i + 1 + m = i + (m + 1) by omega]; exact ht
          have hf2 : ∀ j, j < m → verify (i + 1 + j) = false := by
            intro j hj
            rw [show i + 1 + j = i + (j + 1) by omega]
            exact hf (j + 1) (by omega)
          have hrec := ih n (i + 1) (by omega) ht2 hf2
          simp [installVerifyAux, h0, hrec, List.replicate_succ]

/-- Exact shape of the verification loop trace when every probed result is
false: fuel fail-delay blocks, final checkInstalled false. -/
theorem installVerifyAux_all_false (verify : Nat → Bool) :
    ∀ fuel i, (∀ j, j < fuel → verify (i + j) = false) →
      installVerifyAux verify fuel i =
        ((List.replicate fuel [VEvent.check false, VEvent.delay]).flatten, false) := by
  intro fuel
  induction fuel with
  | zero => intro i _; rfl
  | succ n ih =>
      intro i h
      have h0 : verify i = false := by simpa using h 0 (Nat.succ_pos n)
      have h2 : ∀ j, j < n → verify (i + 1 + j) = false := by
        intro j hj
        rw [show i + 1 + j = i + (j + 1) by omega]
        exact h (j + 1) (by omega)
      simp [installVerifyAux, h0, ih (i + 1) h2, List.replicate_succ]

/-- Check count of k fail-delay blocks followed by a tail. -/
theorem countChecks_rep_append (tail : List VEvent) :
    ∀ k : Nat, countChecks ((List.replicate k [VEvent.check false, VEvent.delay]).flatten ++ tail)
      = k + countChecks tail := by
  intro k
  induction k with
  | zero => simp
  | succ n ih => simp [List.replicate_succ, countChecks, ih]; omega

/-- Delay count of k fail-delay blocks followed by a tail. -/
theorem countDelays_rep_append (tail : List VEvent) :
    ∀ k : Nat, countDelays ((List.replicate k [VEvent.check false, VEvent.delay]).flatten ++ tail)
      = k + countDelays tail := by
  intro k
  induction k with
  | zero => simp
  | succ n ih => simp [List.replicate_succ, countDelays, ih]; omega

/-- Claim C6: install verification calls is_installed at most 5 times;
every 1-second delay immediately follows an unsuccessful check and no
delay, call or any event at all follows a successful check (the loop halts
there); when the first true result is at call k the loop made k+1 calls
and k delays and reports success; when all 5 calls return false the loop
reports failure after 5 calls, and init reaches the error state carrying
the distinct verification-failure message instead of proceeding to the
starting phase; that message differs from both timeout messages in both
languages. -/
theorem install_verification_contract (verify : Nat → Bool) (st : AppState)
    (l : Except String Unit) (hst : st.status ≠ Status.error) :
    countChecks (installVerify verify).1 ≤ 5
    ∧ delayPlacement (installVerify verify).1 = true
    ∧ (∀ k, k < 5 → verify k = true → (∀ j, j < k → verify j = false) →
        countChecks (installVerify verify).1 = k + 1
        ∧ countDelays (installVerify verify).1 = k
        ∧ (installVerify verify).2 = true)
    ∧ ((∀ i, i < 5 → verify i = false) →
        (installVerify verify).2 = false
        ∧ countChecks (installVerify verify).1 = 5
        ∧ countDelays (installVerify verify).1 = 5
        ∧ (launchPhase l (n8nPhase false (Except.ok ()) verify st)).status = Status.error
        ∧ (launchPhase l (n8nPhase false (Except.ok ()) verify st)).errorMsg = verifyFailMsg)
    ∧ verifyFailMsg ≠ zhErrors.timeout ∧ verifyFailMsg ≠ enErrors.timeout
    ∧ verifyFailMsg ≠ zhErrors.startup_timeout ∧ verifyFailMsg ≠ enErrors.startup_timeout := by
  refine ⟨countChecks_installVerifyAux_le verify 5 0,
          delayPlacement_installVerifyAux verify 5 0, ?_, ?_,
          by decide, by decide, by decide, by decide⟩
  · intro k hk ht hf
    have h := installVerifyAux_first_true verify k 5 0 hk (by simpa using ht)
      (by intro j hj; simpa using hf j hj)
    rw [installVerify, h]
    refine ⟨?_, ?_, rfl⟩
    · have := countChecks_rep_append [VEvent.check true] k
      simpa [countChecks] using this
    · have := countDelays_rep_append [VEvent.check true] k
      simpa [countDelays] using this
  · intro hall
    have h := installVerifyAux_all_false verify 5 0 (by intro j hj; simpa using hall j hj)
    have hiv2 : (installVerify verify).2 = false := by rw [installVerify, h]
    have hn : n8nPhase false (Except.ok ()) verify st =
        { stageSetup Status.downloading_n8n ("n8n-core") st with
            currentDownloadType := "", progress := 100,
            errorMsg := verifyFailMsg, status := Status.error } := by
      rw [n8nPhase, if_neg hst]
      simp [hiv2]
    refine ⟨hiv2, ?_, ?_, ?_, ?_⟩
    · rw [installVerify, h]
      have h3 := countChecks_rep_append [] 5
      simp only [List.append_nil] at h3
      exact h3
    · rw [installVerify, h]
      have h4 := countDelays_rep_append [] 5
      simp only [List.append_nil] at h4
      exact h4
    · rw [hn]
      simp [launchPhase, stageSetup]
    · rw [hn]
      simp [launchPhase, stageSetup]

/-- Witness for C6 at the all-false verification oracle. -/
theorem install_verification_contract_witness :
    (initialState.status ≠ Status.error)
    ∧ (countChecks (installVerify (fun _ => false)).1 ≤ 5
       ∧ delayPlacement (installVerify (fun _ => false)).1 = true
       ∧ (∀ k, k < 5 → (fun _ => false : Nat → Bool) k = true →
            (∀ j, j < k → (fun _ => false : Nat → Bool) j = false) →
            countChecks (installVerify (fun _ => false)).1 = k + 1
            ∧ countDelays (installVerify (fun _ => false)).1 = k
            ∧ (installVerify (fun _ => false)).2 = true)
       ∧ ((∀ i, i < 5 → (fun _ => false : Nat → Bool) i = false) →
            (installVerify (fun _ => false)).2 = false
            ∧ countChecks (installVerify (fun _ => false)).1 = 5
            ∧ countDelays (installVerify (fun _ => false)).1 = 5
            ∧ (launchPhase (Except.ok ()) (n8nPhase false (Except.ok ()) (fun _ => false) initialState)).status = Status.error
            ∧ (launchPhase (Except.ok ()) (n8nPhase false (Except.ok ()) (fun _ => false) initialState)).errorMsg = verifyFailMsg)
       ∧ verifyFailMsg ≠ zhErrors.timeout ∧ verifyFailMsg ≠ enErrors.timeout
       ∧ verifyFailMsg ≠ zhErrors.startup_timeout ∧ verifyFailMsg ≠ enErrors.startup_timeout) :=
  ⟨by decide,
   install_verification_contract (fun _ => false) initialState (Except.ok ()) (by decide)⟩

/-- Claim C8 counterexample: after the fifth consecutive unhealthy probe
the controller enters the error state with the retry-exhaustion message
and clears the poll interval, but the overall-deadline timer stays armed,
contradicting the claim that both timers are cancelled at that
transition. -/
theorem retry_exhaustion_leaves_deadline_armed :
    exhaustedState.retryCount = 5
    ∧ exhaustedState.status = Status.error
    ∧ exhaustedState.errorMsg = zhErrors.timeout
    ∧ exhaustedState.pollActive = false
    ∧ exhaustedState.deadlineArmed = true := by
  decide

/-- Claim C8 amended: every unhealthy probe increments retryCount by
exactly 1 and never changes the deadline timer; below the ceiling the tick
changes nothing but the counter; the tick on which the counter reaches
exactly 5 enters the error state with the retry-exhaustion message and
cancels the poll interval only. -/
theorem unhealthy_poll_counts_and_exhausts (msgs : ErrorMsgs)
    (probe : Except String String) (st : AppState)
    (hp : checkHealthViaProxy probe = false) (ht : st.checkTimer.isSome = true) :
    (pollCallback msgs probe st).retryCount = st.retryCount + 1
    ∧ (pollCallback msgs probe st).deadlineArmed = st.deadlineArmed
    ∧ (st.retryCount + 1 < 5 →
        pollCallback msgs probe st = { st with retryCount := st.retryCount + 1 })
    ∧ (st.retryCount + 1 = 5 →
        (pollCallback msgs probe st).status = Status.error
        ∧ (pollCallback msgs probe st).errorMsg = msgs.timeout
        ∧ (pollCallback msgs probe st).pollActive = false
        ∧ (pollCallback msgs probe st).retryCount = 5) := by
  refine ⟨?_, ?_, ?_, ?_⟩
  · by_cases h5 : st.retryCount + 1 ≥ 5 <;> simp [pollCallback, hp, h5, ht]
  · by_cases h5 : st.retryCount + 1 ≥ 5 <;> simp [pollCallback, hp, h5, ht]
  · intro h
    have h5 : ¬ st.retryCount + 1 ≥ 5 := by omega
    simp [pollCallback, hp, h5]
  · intro h
    have h5 : st.retryCount + 1 ≥ 5 := by omega
    simp [pollCallback, hp, h5, ht, h]

/-- Witness for the amended C8: the fifth unhealthy tick from the
four-failure state. -/
theorem unhealthy_poll_counts_and_exhausts_witness :
    (checkHealthViaProxy (Except.error ("connection refused")) = false)
    ∧ (fourFailState.checkTimer.isSome = true)
    ∧ ((pollCallback zhErrors (Except.error ("connection refused")) fourFailState).retryCount = fourFailState.retryCount + 1
       ∧ (pollCallback zhErrors (Except.error ("connection refused")) fourFailState).deadlineArmed = fourFailState.deadlineArmed
       ∧ (fourFailState.retryCount + 1 < 5 →
           pollCallback zhErrors (Except.error ("connection refused")) fourFailState
             = { fourFailState with retryCount := fourFailState.retryCount + 1 })
       ∧ (fourFailState.retryCount + 1 = 5 →
           (pollCallback zhErrors (Except.error ("connection refused")) fourFailState).status = Status.error
           ∧ (pollCallback zhErrors (Except.error ("connection refused")) fourFailState).errorMsg = zhErrors.timeout
           ∧ (pollCallback zhErrors (Except.error ("connection refused")) fourFailState).pollActive = false
           ∧ (pollCallback zhErrors (Except.error ("connection refused")) fourFailState).retryCount = 5)) :=
  ⟨by decide, by decide,
   unhealthy_poll_counts_and_exhausts zhErrors (Except.error ("connection refused")) fourFailState (by decide) (by decide)⟩

/-- Claim C1: the overall-deadline timer is never cancelled, and a firing
strictly after Ready has been entered is not a no-op: starting from the
reachable post-Ready state of the happy path, the deadline callback (whose
closure captured status = checking and sees the never-nulled checkTimer)
overwrites the ready status with error and stores the deadline message;
moreover teardown leaves the deadline armed. -/
theorem deadline_after_ready_mutates_state :
    readyState.status = Status.ready
    ∧ readyState.deadlineArmed = true
    ∧ (deadlineCallback Status.checking zhErrors readyState).status = Status.error
    ∧ (deadlineCallback Status.checking zhErrors readyState).errorMsg = zhErrors.startup_timeout
    ∧ (cleanup readyState).deadlineArmed = true := by
  decide

end Bootstrap
